import Mathlib

/-!
Verification development for the research-agent control loop of
`src/agent.ts` (`getResponse` and its helpers).

The loop is embedded shallowly: the external collaborators (the Gemini
decision oracle, the answer evaluator, the error analyzer, the query
deduplicator/rewriter, the search and URL-fetch adapters) are supplied as an
`Env` of pure functions, indexed where needed by the global step counter, and
each fallible adapter returns `Except`.  `Promise.all` over the URL fetches is
modelled by a fold that fails as soon as one fetch fails, which is observably
equivalent for the returned value of the run.  Token usage tracked through
`TokenTracker` is a single `Nat` counter.  Diary entries (prose template
strings in the source) are abstracted to an inductive type carrying exactly
the values interpolated into each template.

Not modelled, because they are invisible in the run's returned value: the
module-level `allContext` transcript and `updateContext`, the `storeContext`
debug-artifact writes (their failures are caught and logged), the
`actionTracker` notifications, console logging, and the inter-step `sleep`
pacing.  The source tracks the oracle call's token count just before
`JSON.parse`; the embedding tracks it in the successful-parse path only,
which is observationally identical since a parse failure aborts the run
with an error carrying no state.
-/

namespace DeepResearch

/-- One reference supporting an answer (`references[]` items of the schema). -/
structure Reference where
  exactQuote : String
  url : String
deriving DecidableEq, Repr

/-- The oracle's parsed JSON decision (`StepAction` in `types.ts`); absent
JSON fields are `none` / defaults, mirroring `JSON.parse`'s output. -/
structure StepAction where
  action : String
  thoughts : String := ""
  answer : String := ""
  references : Option (List Reference) := none
  searchQuery : Option String := none
  questionsToAnswer : Option (List String) := none
  URLTargets : Option (List String) := none
deriving DecidableEq, Repr

/-- The evaluator's verdict (`EvaluationResponse` in `types.ts`). -/
structure EvaluationResponse where
  is_definitive : Bool
  reasoning : String
deriving DecidableEq, Repr

/-- The failure analyzer's diagnosis (the `...errorAnalysis` spread fields
used by `badContext.push` and the prompt builder: recap, blame, improvement). -/
structure ErrorAnalysis where
  recap : String
  blame : String
  improvement : String
deriving DecidableEq, Repr

/-- A Bad-Attempt Record pushed onto `badContext` in `agent.ts`. -/
structure BadAttempt where
  question : String
  answer : String
  evaluation : String
  recap : String
  blame : String
  improvement : String
deriving DecidableEq, Repr

/-- An `allKnowledge` entry: `{question, answer, type}` with type `qa`/`url`. -/
structure KnowledgeItem where
  question : String
  answer : String
  type : String
deriving DecidableEq, Repr

/-- One search-adapter result after the `minResults` mapping in `agent.ts`. -/
structure SearchResult where
  title : String
  url : String
  description : String
deriving DecidableEq, Repr

/-- The `response.data` object of a `readUrl` result; both fields may be
absent (the source guards with `response.data?.url` and `?.content`). -/
structure ReadData where
  url : Option String := none
  content : Option String := none
deriving DecidableEq, Repr

/-- A `readUrl` result: `{response, tokens}` as destructured in the visit
branch of `agent.ts`. -/
structure ReadResult where
  data : Option ReadData := none
  tokens : Nat := 0
deriving DecidableEq, Repr

/-- Diary entries: each constructor stands for one of the template literals
pushed onto `diaryContext` in `getResponse`, carrying the interpolated
values. -/
inductive DiaryEntry where
  | answerFinalExit (step badAttempts : Nat) (question answer reasoning : String)
  | answerAccepted (step : Nat) (question answer reasoning : String)
  | answerNoRefs (step : Nat) (question answer : String)
  | answerBad (step : Nat) (question answer reasoning : String)
  | subAnswerGood (step : Nat) (question answer reasoning : String)
  | reflectNew (step : Nat) (question : String) (newQuestions : List String)
  | reflectDup (step : Nat) (question : String) (oldQuestions : List String)
  | searchNew (step : Nat) (question : String) (keywords : List String)
  | searchDup (step : Nat) (question : String) (oldKeywords : List String)
  | visitNew (step : Nat) (urls : List String)
  | visitDup (step : Nat) (urls : List String)
deriving DecidableEq, Repr

/-- The external collaborators of the loop, supplied as pure functions.
The decision oracle is indexed by the value of `totalStep` at the call, which
strictly increases, so any sequence of oracle replies is expressible. -/
structure Env where
  /-- `model.generateContent` + `JSON.parse` inside the loop; `none` models a
  malformed-JSON response (`JSON.parse` throws). -/
  oracle : Nat → Option StepAction
  /-- `usageMetadata.totalTokenCount || 0` of the in-loop oracle call. -/
  oracleTokens : Nat → Nat
  /-- `evaluateAnswer(question, answer)` plus the token count it tracks. -/
  evaluateAnswer : String → String → EvaluationResponse × Nat
  /-- `analyzeSteps(diaryContext)`. -/
  analyzeSteps : List DiaryEntry → ErrorAnalysis
  /-- `dedupQueries(candidates, reference).unique_queries`. -/
  dedupQueries : List String → List String → List String
  /-- `rewriteQuery(thisStep).queries`. -/
  rewriteQuery : StepAction → List String
  /-- the search adapter (duck/brave) after the `minResults` mapping; may
  reject. -/
  search : String → Except String (List SearchResult)
  /-- `readUrl(url, ...)`; may reject, failing the whole visit step. -/
  readUrl : String → Except String ReadResult
  /-- beast-mode `generateContent` + `JSON.parse`; `none` = malformed JSON. -/
  beastOracle : Option StepAction
  /-- token count tracked for the beast-mode call. -/
  beastTokens : Nat

/-- The local mutable state of one `getResponse` run. -/
structure AgentState where
  step : Nat
  totalStep : Nat
  badAttempts : Nat
  gaps : List String
  allQuestions : List String
  allKeywords : List String
  allKnowledge : List KnowledgeItem
  badContext : List BadAttempt
  diaryContext : List DiaryEntry
  allowAnswer : Bool
  allowSearch : Bool
  allowRead : Bool
  allowReflect : Bool
  thisStep : StepAction
  isAnswered : Bool
  /-- `allURLs`: a JS object keyed by URL; insertion order preserved, updates
  in place. -/
  allURLs : List (String × String)
  visitedURLs : List String
  /-- `context.tokenTracker.getTotalUsage()`. -/
  usage : Nat

/-- The response schema built by `getSchema`: the `action` enum (in push
order: search, answer, reflect, visit) and the property keys. -/
structure ResponseSchema where
  actionEnum : List String
  propertyKeys : List String
deriving DecidableEq, Repr

/-- `getSchema(allowReflect, allowRead, allowAnswer, allowSearch)`. -/
def getSchema (allowReflect allowRead allowAnswer allowSearch : Bool) : ResponseSchema :=
  { actionEnum :=
      (if allowSearch then ["search"] else []) ++
      (if allowAnswer then ["answer"] else []) ++
      (if allowReflect then ["reflect"] else []) ++
      (if allowRead then ["visit"] else [])
    propertyKeys :=
      ["action", "thoughts"] ++
      (if allowSearch then ["searchQuery"] else []) ++
      (if allowAnswer then ["answer", "references"] else []) ++
      (if allowReflect then ["questionsToAnswer"] else []) ++
      (if allowRead then ["URLTargets"] else []) }

/-- `removeAllLineBreaks`: the regex `/(\r\n|\n|\r)/gm` replaced by a space;
a CRLF pair becomes a single space. -/
def collapseNewlines : List Char → List Char
  | [] => []
  | '\r' :: '\n' :: rest => ' ' :: collapseNewlines rest
  | '\r' :: rest => ' ' :: collapseNewlines rest
  | '\n' :: rest => ' ' :: collapseNewlines rest
  | c :: rest => c :: collapseNewlines rest

def removeAllLineBreaks (text : String) : String :=
  String.mk (collapseNewlines text.data)

/-- JavaScript `a || b` on an optional string: the default is used when the
value is absent or the empty string (falsy). -/
def jsOr (o : Option String) (d : String) : String :=
  match o with
  | some s => if s == "" then d else s
  | none => d

/-- `allURLs[url] = title` on a JS object: update in place if the key exists,
append otherwise. -/
def insertURL (m : List (String × String)) (url title : String) : List (String × String) :=
  if m.any (fun p => p.1 == url) then
    m.map (fun p => if p.1 == url then (url, title) else p)
  else
    m ++ [(url, title)]

/-- `delete allURLs[url]`. -/
def deleteURL (m : List (String × String)) (url : String) : List (String × String) :=
  m.filter (fun p => !(p.1 == url))

/-- JS truthiness of `thisStep.searchQuery` (absent or `""` is falsy). -/
def truthyString : Option String → Bool
  | some s => !(s == "")
  | none => false

/-- JS truthiness of `thisStep.URLTargets?.length` (absent or `[]` is falsy). -/
def truthyLen : Option (List String) → Bool
  | some l => !l.isEmpty
  | none => false

/-- JS `thisStep.references?.length > 0`. -/
def refsNonempty : Option (List Reference) → Bool
  | some l => decide (0 < l.length)
  | none => false

/-- `gaps.length > 0 ? gaps.shift()! : question` — the question the step
addresses, read off the pre-pop state. -/
def currentQuestion (question : String) (s : AgentState) : String :=
  match s.gaps with
  | [] => question
  | c :: _ => c

/-- Lines 319–329 of `agent.ts`: increment both step counters, gate
`allowReflect` on the pre-pop queue length, pop the current question, gate
`allowRead` and `allowSearch` on the frontier size. -/
def stepPrelude (s : AgentState) : AgentState :=
  { s with
    step := s.step + 1
    totalStep := s.totalStep + 1
    allowReflect := s.allowReflect && decide (s.gaps.length ≤ 1)
    gaps := s.gaps.tail
    allowRead := s.allowRead && !s.allURLs.isEmpty
    allowSearch := s.allowSearch && decide (s.allURLs.length < 20) }

/-- Outcome of one loop iteration: `exit` models a `break`. -/
inductive StepOutcome where
  | proceed (s : AgentState)
  | exit (s : AgentState)

/-- The state carried by an outcome. -/
def StepOutcome.state : StepOutcome → AgentState
  | .proceed s => s
  | .exit s => s

/-- The `answer` branch of the dispatch (lines 381–494). -/
def dispatchAnswer (env : Env) (question : String) (maxBadAttempts : Nat)
    (cq : String) (a : StepAction) (s0 : AgentState) : StepOutcome :=
  let ev := env.evaluateAnswer cq a.answer
  let s := {s0 with usage := s0.usage + ev.2}
  if cq == question then
    if maxBadAttempts ≤ s.badAttempts then
      .exit {s with
        diaryContext := s.diaryContext ++
          [.answerFinalExit s.step s.badAttempts cq a.answer ev.1.reasoning]
        isAnswered := false}
    else if ev.1.is_definitive then
      if refsNonempty a.references || s.allURLs.isEmpty then
        .exit {s with
          diaryContext := s.diaryContext ++
            [.answerAccepted s.step cq a.answer ev.1.reasoning]
          isAnswered := true}
      else
        .exit {s with
          diaryContext := s.diaryContext ++ [.answerNoRefs s.step cq a.answer]
          isAnswered := true}
    else
      let diary2 := s.diaryContext ++ [.answerBad s.step cq a.answer ev.1.reasoning]
      let ana := env.analyzeSteps diary2
      .proceed {s with
        badContext := s.badContext ++
          [{question := cq, answer := a.answer, evaluation := ev.1.reasoning,
            recap := ana.recap, blame := ana.blame, improvement := ana.improvement}]
        badAttempts := s.badAttempts + 1
        allowAnswer := false
        diaryContext := []
        step := 0}
  else
    if ev.1.is_definitive then
      .proceed {s with
        diaryContext := s.diaryContext ++
          [.subAnswerGood s.step cq a.answer ev.1.reasoning]
        allKnowledge := s.allKnowledge ++
          [{question := cq, answer := a.answer, type := "qa"}]}
    else
      .proceed s

/-- Lines 498–500: proposed gap questions are deduplicated against the
all-time question list (only when that list is nonempty). -/
def survivingQuestions (env : Env) (s : AgentState) (qs : List String) : List String :=
  if !s.allQuestions.isEmpty then env.dedupQueries qs s.allQuestions else qs

/-- Lines 530–535: rewritten keywords are deduplicated against the keyword
history (only when that history is nonempty). -/
def survivingKeywords (env : Env) (s : AgentState) (kw0 : List String) : List String :=
  if !s.allKeywords.isEmpty then env.dedupQueries kw0 s.allKeywords else kw0

/-- The `reflect` branch (lines 495–525). -/
def dispatchReflect (env : Env) (question cq : String) (a : StepAction)
    (s : AgentState) : AgentState :=
  let qs := a.questionsToAnswer.getD []
  let newGap := survivingQuestions env s qs
  if !newGap.isEmpty then
    {s with
      diaryContext := s.diaryContext ++ [.reflectNew s.step cq newGap]
      gaps := s.gaps ++ newGap ++ [question]
      allQuestions := s.allQuestions ++ newGap}
  else
    {s with
      diaryContext := s.diaryContext ++ [.reflectDup s.step cq qs]
      allowReflect := false}

/-- The `for (const query of keywordsQueries)` loop of the `search` branch:
each adapter call's results are merged into the frontier and the keyword is
recorded; an adapter rejection propagates. -/
def searchFold (env : Env) : List String → AgentState → Except String AgentState
  | [], st => .ok st
  | q :: rest, st =>
    match env.search q with
    | .error e => .error e
    | .ok results =>
      searchFold env rest
        {st with
          allURLs := results.foldl (fun m r => insertURL m r.url r.title) st.allURLs
          allKeywords := st.allKeywords ++ [q]}

/-- The `search` branch (lines 526–596). -/
def dispatchSearch (env : Env) (cq : String) (a : StepAction)
    (s : AgentState) : Except String StepOutcome :=
  let kw0 := env.rewriteQuery a
  let kws := survivingKeywords env s kw0
  if !kws.isEmpty then
    match searchFold env kws s with
    | .error e => .error e
    | .ok st =>
      .ok (.proceed {st with
        diaryContext := st.diaryContext ++ [.searchNew st.step cq kws]})
  else
    .ok (.proceed {s with
      diaryContext := s.diaryContext ++ [.searchDup s.step cq kw0]
      allowSearch := false})

/-- The Knowledge Item built from one fetched URL (lines 610–614), including
the `||` fallbacks on absent/empty fields. -/
def knowledgeOfRead (rr : ReadResult) : KnowledgeItem :=
  { question := "What is in " ++ jsOr (rr.data.bind (fun d => d.url)) "the URL" ++ "?"
    answer := removeAllLineBreaks (jsOr (rr.data.bind (fun d => d.content)) "No content available")
    type := "url" }

/-- The `Promise.all(uniqueURLs.map(...))` of the `visit` branch: every fetch
appends a Knowledge Item, records the URL as visited, deletes it from the
frontier and meters the fetch cost; one rejection fails the whole step. -/
def visitFold (env : Env) : List String → AgentState → Except String AgentState
  | [], st => .ok st
  | u :: rest, st =>
    match env.readUrl u with
    | .error e => .error e
    | .ok rr =>
      visitFold env rest
        {st with
          usage := st.usage + rr.tokens
          allKnowledge := st.allKnowledge ++ [knowledgeOfRead rr]
          visitedURLs := st.visitedURLs ++ [u]
          allURLs := deleteURL st.allURLs u}

/-- Lines 599–603: requested URLs are filtered against `visitedURLs` only
(and only when that list is nonempty); duplicates inside the request
survive. -/
def uniqueTargets (visited targets : List String) : List String :=
  if visited.isEmpty then targets
  else targets.filter (fun u => !(visited.contains u))

/-- The `visit` branch (lines 597–647). -/
def dispatchVisit (env : Env) (a : StepAction) (s : AgentState) :
    Except String StepOutcome :=
  let targets := a.URLTargets.getD []
  let uniq := uniqueTargets s.visitedURLs targets
  if !uniq.isEmpty then
    match visitFold env uniq s with
    | .error e => .error e
    | .ok st =>
      .ok (.proceed {st with
        diaryContext := st.diaryContext ++ [.visitNew st.step targets]})
  else
    .ok (.proceed {s with
      diaryContext := s.diaryContext ++ [.visitDup s.step targets]
      allowRead := false})

/-- The `if/else if` dispatch chain on `thisStep.action` (lines 381–648),
with the source's truthiness guards; a decision matching no branch falls
through silently. -/
def dispatch (env : Env) (question : String) (maxBadAttempts : Nat)
    (cq : String) (a : StepAction) (s : AgentState) : Except String StepOutcome :=
  if a.action == "answer" then
    .ok (dispatchAnswer env question maxBadAttempts cq a s)
  else if a.action == "reflect" && a.questionsToAnswer.isSome then
    .ok (.proceed (dispatchReflect env question cq a s))
  else if a.action == "search" && truthyString a.searchQuery then
    dispatchSearch env cq a s
  else if a.action == "visit" && truthyLen a.URLTargets then
    dispatchVisit env a s
  else
    .ok (.proceed s)

/-- The budget pre-flight error text (lines 358–360 and 684–687). -/
def budgetError (usage budget : Nat) : String :=
  "Token budget would be exceeded: " ++ toString (usage + 50) ++ " > " ++ toString budget

/-- The state right after a successful oracle call: usage tracked, the parsed
decision stored, and the four permission toggles re-enabled (lines 365–378). -/
def postOracle (env : Env) (s0 : AgentState) (a : StepAction) : AgentState :=
  let s1 := stepPrelude s0
  {s1 with
    usage := s1.usage + env.oracleTokens s1.totalStep
    thisStep := a
    allowAnswer := true
    allowReflect := true
    allowRead := true
    allowSearch := true}

/-- One iteration of the `while` body (lines 317–651): prelude, pre-flight
budget check, oracle call and usage tracking, JSON parse, re-enable of the
four toggles, dispatch. -/
def runStep (env : Env) (question : String) (tokenBudget maxBadAttempts : Nat)
    (s0 : AgentState) : Except String StepOutcome :=
  let s1 := stepPrelude s0
  if tokenBudget < s1.usage + 50 then
    .error (budgetError s1.usage tokenBudget)
  else
    match env.oracle s1.totalStep with
    | none => .error "Unexpected token in JSON"
    | some a =>
      dispatch env question maxBadAttempts (currentQuestion question s0) a (postOracle env s0 a)

/-- The `while` loop, fuel-indexed; `some` is a genuine loop exit (condition
false or `break`), `none` means the fuel ran out before the loop did. -/
def runLoop (env : Env) (question : String) (tokenBudget maxBadAttempts : Nat) :
    Nat → AgentState → Except String (Option AgentState)
  | 0, _ => .ok none
  | fuel + 1, s =>
    if s.usage < tokenBudget ∧ s.badAttempts ≤ maxBadAttempts then
      match runStep env question tokenBudget maxBadAttempts s with
      | .error e => .error e
      | .ok (.exit s1) => .ok (some s1)
      | .ok (.proceed s1) => runLoop env question tokenBudget maxBadAttempts fuel s1
    else
      .ok (some s)

/-- The state at entry of `getResponse` (lines 297–315). -/
def initialState (question : String) : AgentState :=
  { step := 0, totalStep := 0, badAttempts := 0
    gaps := [question], allQuestions := [question]
    allKeywords := [], allKnowledge := [], badContext := [], diaryContext := []
    allowAnswer := true, allowSearch := true, allowRead := true, allowReflect := true
    thisStep := {action := "answer", answer := "", references := some [], thoughts := ""}
    isAnswered := false, allURLs := [], visitedURLs := [], usage := 0 }

/-- `getResponse`: run the loop, then either return the accepted answer or
perform the beast-mode final attempt (post-loop counter bumps, answer-only
schema, pre-flight budget check, oracle call, parse).  `ok none` means the
fuel ran out with the loop still running. -/
def getResponse (env : Env) (question : String)
    (tokenBudget : Nat := 1000000) (maxBadAttempts : Nat := 3) (fuel : Nat) :
    Except String (Option (StepAction × AgentState)) :=
  match runLoop env question tokenBudget maxBadAttempts fuel (initialState question) with
  | .error e => .error e
  | .ok none => .ok none
  | .ok (some s) =>
    let s1 := {s with step := s.step + 1, totalStep := s.totalStep + 1}
    if s1.isAnswered then
      .ok (some (s1.thisStep, s1))
    else
      let _schema := getSchema false false s1.allowAnswer false
      if tokenBudget < s1.usage + 50 then
        .error (budgetError s1.usage tokenBudget)
      else
        let s2 := {s1 with usage := s1.usage + env.beastTokens}
        match env.beastOracle with
        | none => .error "Unexpected token in JSON"
        | some a => .ok (some (a, {s2 with thisStep := a}))

/-! ### Derived definitions used by the statements below -/

/-- Disjointness of the Visited-URL list and the URL Frontier keys. -/
def URLsDisjoint (visited : List String) (frontier : List (String × String)) : Prop :=
  ∀ u ∈ visited, ∀ p ∈ frontier, p.1 ≠ u

/-- The Bad-Attempt Record the non-definitive branch pushes for the decision
`a` taken from state `s` (the diary at the push already holds the fresh
`answerBad` entry, and the step counter was incremented by the prelude). -/
def badRecordOf (env : Env) (question : String) (s : AgentState) (a : StepAction) : BadAttempt :=
  let cq := currentQuestion question s
  let ev := env.evaluateAnswer cq a.answer
  let ana := env.analyzeSteps
    (s.diaryContext ++ [.answerBad (s.step + 1) cq a.answer ev.1.reasoning])
  { question := cq, answer := a.answer, evaluation := ev.1.reasoning,
    recap := ana.recap, blame := ana.blame, improvement := ana.improvement }

/-- The state of a step result, with a default for the error case. -/
def stepStateOr (r : Except String StepOutcome) (d : AgentState) : AgentState :=
  match r with
  | .ok o => o.state
  | .error _ => d

/-- The exit state of a loop result, with a default otherwise. -/
def loopStateOr (r : Except String (Option AgentState)) (d : AgentState) : AgentState :=
  match r with
  | .ok (some s) => s
  | _ => d

/-- The returned decision/state pair of a run, with a default otherwise. -/
def respOr (r : Except String (Option (StepAction × AgentState)))
    (d : StepAction × AgentState) : StepAction × AgentState :=
  match r with
  | .ok (some p) => p
  | _ => d

/-- The state after one step from `s`, with `s` as the error default. -/
def stepResultOf (env : Env) (q : String) (b m : Nat) (s : AgentState) : AgentState :=
  stepStateOr (runStep env q b m s) s

/-- The loop-exit state of a run from the initial state. -/
def loopExitOf (env : Env) (q : String) (b m fuel : Nat) : AgentState :=
  loopStateOr (runLoop env q b m fuel (initialState q)) (initialState q)

/-- The returned decision/state pair of a run from the initial state. -/
def runPairOf (env : Env) (q : String) (b m fuel : Nat) : StepAction × AgentState :=
  respOr (getResponse env q b m fuel) ({action := ""}, initialState q)

/-! ### Concrete collaborator environments used as test inputs -/

/-- A benign environment: a visit decision, then a search whose single result
is the URL just visited, then a definitive answer carrying a reference. -/
def envVisitSearchAnswer : Env :=
  { oracle := fun n =>
      if n = 1 then some {action := "visit", URLTargets := some ["http://a"]}
      else if n = 2 then some {action := "search", searchQuery := some "x"}
      else some {action := "answer", answer := "ans",
                 references := some [{exactQuote := "q", url := "http://a"}]}
    oracleTokens := fun _ => 10
    evaluateAnswer := fun _ _ => ({is_definitive := true, reasoning := "good"}, 5)
    analyzeSteps := fun _ => {recap := "r", blame := "b", improvement := "i"}
    dedupQueries := fun qs _ => qs
    rewriteQuery := fun a => [jsOr a.searchQuery ""]
    search := fun _ => .ok [{title := "A", url := "http://a", description := "d"}]
    readUrl := fun _ => .ok {data := some {url := some "http://a", content := some "hello"}, tokens := 5}
    beastOracle := some {action := "answer", answer := "beast"}
    beastTokens := 7 }

/-- Every decision is an `answer` judged non-definitive; the oracle call
costs 60 tokens. -/
def envBadAnswer60 : Env :=
  { envVisitSearchAnswer with
    oracle := fun _ => some {action := "answer", answer := "ans"}
    oracleTokens := fun _ => 60
    evaluateAnswer := fun _ _ => ({is_definitive := false, reasoning := "bad"}, 0) }

/-- As `envBadAnswer60` but with a 10-token oracle call. -/
def envBadAnswer10 : Env :=
  { envBadAnswer60 with oracleTokens := fun _ => 10 }

/-- Every decision is a search; the oracle call costs 1000 tokens. -/
def envBigSearch : Env :=
  { envVisitSearchAnswer with
    oracle := fun _ => some {action := "search", searchQuery := some "x"}
    oracleTokens := fun _ => 1000 }

/-- A reflect decision both of whose proposals the deduplicator drops. -/
def envReflectDup : Env :=
  { envVisitSearchAnswer with
    oracle := fun _ => some {action := "reflect", questionsToAnswer := some ["A", "B"]}
    dedupQueries := fun _ _ => [] }

/-- A reflect decision whose proposals all survive deduplication. -/
def envReflectNew : Env :=
  { envVisitSearchAnswer with
    oracle := fun _ => some {action := "reflect", questionsToAnswer := some ["A", "B"]} }

/-- A decision whose action matches no branch of the dispatch. -/
def envDance : Env :=
  { envVisitSearchAnswer with oracle := fun _ => some {action := "dance"} }

/-- An oracle reply that fails to parse as JSON. -/
def envNoParse : Env :=
  { envVisitSearchAnswer with oracle := fun _ => none }

/-- A visit decision whose fetch rejects. -/
def envVisitFail : Env :=
  { envVisitSearchAnswer with
    oracle := fun _ => some {action := "visit", URLTargets := some ["http://a"]}
    readUrl := fun _ => .error "fetch failed" }

/-- A visit decision listing the same unvisited URL twice. -/
def envVisitTwice : Env :=
  { envVisitSearchAnswer with
    oracle := fun _ => some {action := "visit", URLTargets := some ["http://a", "http://a"]} }

/-! ### Basic facts about the step prelude and the post-oracle state -/

theorem stepPrelude_usage (s : AgentState) : (stepPrelude s).usage = s.usage := rfl

theorem stepPrelude_totalStep (s : AgentState) :
    (stepPrelude s).totalStep = s.totalStep + 1 := rfl

theorem stepPrelude_gaps (s : AgentState) : (stepPrelude s).gaps = s.gaps.tail := rfl

theorem postOracle_badAttempts (env : Env) (s : AgentState) (a : StepAction) :
    (postOracle env s a).badAttempts = s.badAttempts := rfl

theorem postOracle_badContext (env : Env) (s : AgentState) (a : StepAction) :
    (postOracle env s a).badContext = s.badContext := rfl

theorem postOracle_gaps (env : Env) (s : AgentState) (a : StepAction) :
    (postOracle env s a).gaps = s.gaps.tail := rfl

theorem postOracle_allQuestions (env : Env) (s : AgentState) (a : StepAction) :
    (postOracle env s a).allQuestions = s.allQuestions := rfl

theorem postOracle_visitedURLs (env : Env) (s : AgentState) (a : StepAction) :
    (postOracle env s a).visitedURLs = s.visitedURLs := rfl

theorem postOracle_allURLs (env : Env) (s : AgentState) (a : StepAction) :
    (postOracle env s a).allURLs = s.allURLs := rfl

theorem postOracle_diaryContext (env : Env) (s : AgentState) (a : StepAction) :
    (postOracle env s a).diaryContext = s.diaryContext := rfl

theorem postOracle_allKnowledge (env : Env) (s : AgentState) (a : StepAction) :
    (postOracle env s a).allKnowledge = s.allKnowledge := rfl

theorem postOracle_step (env : Env) (s : AgentState) (a : StepAction) :
    (postOracle env s a).step = s.step + 1 := rfl

theorem postOracle_totalStep (env : Env) (s : AgentState) (a : StepAction) :
    (postOracle env s a).totalStep = s.totalStep + 1 := rfl

theorem postOracle_allowAnswer (env : Env) (s : AgentState) (a : StepAction) :
    (postOracle env s a).allowAnswer = true := rfl

theorem postOracle_allowReflect (env : Env) (s : AgentState) (a : StepAction) :
    (postOracle env s a).allowReflect = true := rfl

/-- `runStep` reduced to the dispatch once the pre-flight check passes and
the oracle reply parses. -/
theorem runStep_eq_dispatch (env : Env) (question : String)
    (tokenBudget maxBadAttempts : Nat) (s : AgentState) (a : StepAction)
    (h50 : ¬ tokenBudget < s.usage + 50)
    (ho : env.oracle (s.totalStep + 1) = some a) :
    runStep env question tokenBudget maxBadAttempts s =
      dispatch env question maxBadAttempts (currentQuestion question s) a (postOracle env s a) := by
  have ho2 : env.oracle (stepPrelude s).totalStep = some a := ho
  have h502 : ¬ tokenBudget < (stepPrelude s).usage + 50 := h50
  simp only [runStep, if_neg h502, ho2]

/-- A step that did not throw must have passed the pre-flight budget check. -/
theorem runStep_ok_not_over (env : Env) (question : String)
    (tokenBudget maxBadAttempts : Nat) (s : AgentState) (out : StepOutcome)
    (h : runStep env question tokenBudget maxBadAttempts s = .ok out) :
    ¬ tokenBudget < s.usage + 50 := by
  intro hlt
  have hlt2 : tokenBudget < (stepPrelude s).usage + 50 := hlt
  simp only [runStep, if_pos hlt2] at h
  exact Except.noConfusion h

/-- A step that did not throw must have parsed the oracle's reply. -/
theorem runStep_ok_oracle (env : Env) (question : String)
    (tokenBudget maxBadAttempts : Nat) (s : AgentState) (out : StepOutcome)
    (h : runStep env question tokenBudget maxBadAttempts s = .ok out) :
    ∃ a, env.oracle (s.totalStep + 1) = some a := by
  simp only [runStep] at h
  split at h
  · exact Except.noConfusion h
  · cases ho : env.oracle (stepPrelude s).totalStep with
    | none => simp only [ho] at h; exact Except.noConfusion h
    | some a => exact ⟨a, ho⟩

/-! ### Scheme membership characterizations -/

theorem answer_mem_actionEnum (r rd an se : Bool) :
    "answer" ∈ (getSchema r rd an se).actionEnum ↔ an = true := by
  cases r <;> cases rd <;> cases an <;> cases se <;> decide

theorem reflect_mem_actionEnum (r rd an se : Bool) :
    "reflect" ∈ (getSchema r rd an se).actionEnum ↔ r = true := by
  cases r <;> cases rd <;> cases an <;> cases se <;> decide

/-! ### Preservation facts for the search and visit folds -/

theorem searchFold_preserves (env : Env) (l : List String) (st st' : AgentState)
    (h : searchFold env l st = .ok st') :
    st'.badAttempts = st.badAttempts ∧ st'.badContext = st.badContext ∧
    st'.allowAnswer = st.allowAnswer ∧ st'.allowReflect = st.allowReflect ∧
    st'.visitedURLs = st.visitedURLs ∧ st'.isAnswered = st.isAnswered ∧
    st'.step = st.step ∧ st'.totalStep = st.totalStep ∧ st'.gaps = st.gaps ∧
    st'.allQuestions = st.allQuestions ∧ st'.diaryContext = st.diaryContext ∧
    st'.allKnowledge = st.allKnowledge ∧ st'.usage = st.usage := by
  induction l generalizing st with
  | nil =>
    unfold searchFold at h
    cases h
    exact ⟨rfl, rfl, rfl, rfl, rfl, rfl, rfl, rfl, rfl, rfl, rfl, rfl, rfl⟩
  | cons q rest ih =>
    unfold searchFold at h
    cases hs : env.search q with
    | error e => simp only [hs] at h; exact Except.noConfusion h
    | ok results =>
      simp only [hs] at h
      have hh := ih _ h
      exact hh

theorem visitFold_preserves (env : Env) (l : List String) (st st' : AgentState)
    (h : visitFold env l st = .ok st') :
    st'.badAttempts = st.badAttempts ∧ st'.badContext = st.badContext ∧
    st'.allowAnswer = st.allowAnswer ∧ st'.allowReflect = st.allowReflect ∧
    st'.allowSearch = st.allowSearch ∧ st'.allowRead = st.allowRead ∧
    st'.isAnswered = st.isAnswered ∧ st'.step = st.step ∧
    st'.totalStep = st.totalStep ∧ st'.gaps = st.gaps ∧
    st'.allQuestions = st.allQuestions ∧ st'.allKeywords = st.allKeywords := by
  induction l generalizing st with
  | nil =>
    unfold visitFold at h
    cases h
    exact ⟨rfl, rfl, rfl, rfl, rfl, rfl, rfl, rfl, rfl, rfl, rfl, rfl⟩
  | cons u rest ih =>
    unfold visitFold at h
    cases hr : env.readUrl u with
    | error e => simp only [hr] at h; exact Except.noConfusion h
    | ok rr =>
      simp only [hr] at h
      have hh := ih _ h
      exact hh

/-- One failing fetch in the list makes the whole fold (the `Promise.all`)
fail. -/
theorem visitFold_error (env : Env) (l : List String) (st : AgentState)
    (u : String) (e : String) (hu : u ∈ l) (hf : env.readUrl u = .error e) :
    ∃ e2, visitFold env l st = .error e2 := by
  induction l generalizing st with
  | nil => cases hu
  | cons v rest ih =>
    unfold visitFold
    cases hr : env.readUrl v with
    | error e3 => exact ⟨e3, by simp only [hr]⟩
    | ok rr =>
      rcases List.mem_cons.mp hu with h1 | h1
      · subst h1; rw [hf] at hr; exact Except.noConfusion hr
      · simp only [hr]
        exact ih _ h1

/-- Disjointness of visited list and frontier is preserved by the visit fold:
each iteration moves one URL from the frontier to the visited list. -/
theorem visitFold_disjoint (env : Env) (l : List String) (st st' : AgentState)
    (h : visitFold env l st = .ok st')
    (hd : URLsDisjoint st.visitedURLs st.allURLs) :
    URLsDisjoint st'.visitedURLs st'.allURLs := by
  induction l generalizing st with
  | nil =>
    unfold visitFold at h
    cases h
    exact hd
  | cons u rest ih =>
    unfold visitFold at h
    cases hr : env.readUrl u with
    | error e => simp only [hr] at h; exact Except.noConfusion h
    | ok rr =>
      simp only [hr] at h
      refine ih _ h ?_
      intro v hv p hp
      have hp2 : p ∈ st.allURLs ∧ (!(p.1 == u)) = true := List.mem_filter.mp hp
      rcases List.mem_append.mp hv with hv1 | hv1
      · exact hd v hv1 p hp2.1
      · have hvu : v = u := by simpa using hv1
        subst hvu
        have : (p.1 == v) = false := by simpa using hp2.2
        exact fun hc => by simp [hc] at this

/-- Case analysis of a non-throwing dispatch: either the bad-attempt data is
untouched, or the step was a non-definitive answer to the question it
addressed, below the ceiling, and the record/counter/flag all changed
together. -/
theorem dispatch_badState (env : Env) (q : String) (m : Nat) (cq : String)
    (a : StepAction) (t : AgentState) (out : StepOutcome)
    (h : dispatch env q m cq a t = .ok out) :
    (out.state.badAttempts = t.badAttempts ∧
     out.state.badContext = t.badContext ∧
     out.state.allowAnswer = t.allowAnswer) ∨
    (out.state.badAttempts = t.badAttempts + 1 ∧
     out.state.badContext.length = t.badContext.length + 1 ∧
     out.state.allowAnswer = false ∧ t.badAttempts < m ∧
     a.action = "answer" ∧ cq = q ∧
     (env.evaluateAnswer cq a.answer).1.is_definitive = false) := by
  simp only [dispatch] at h
  split at h
  next hb1 =>
    simp only [dispatchAnswer] at h
    split at h
    next hcq =>
      split at h
      next hle =>
        cases h; exact Or.inl ⟨rfl, rfl, rfl⟩
      next hle =>
        split at h
        next hdef =>
          split at h
          · cases h; exact Or.inl ⟨rfl, rfl, rfl⟩
          · cases h; exact Or.inl ⟨rfl, rfl, rfl⟩
        next hdef =>
          cases h
          refine Or.inr ⟨rfl, by simp [StepOutcome.state], rfl,
            Nat.lt_of_not_le hle, by simpa using hb1, by simpa using hcq,
            by simpa using hdef⟩
    next hcq =>
      split at h
      · cases h; exact Or.inl ⟨rfl, rfl, rfl⟩
      · cases h; exact Or.inl ⟨rfl, rfl, rfl⟩
  next hb1 =>
    split at h
    next hb2 =>
      cases h
      simp only [StepOutcome.state, dispatchReflect]
      split <;> exact Or.inl ⟨rfl, rfl, rfl⟩
    next hb2 =>
      split at h
      next hb3 =>
        simp only [dispatchSearch] at h
        split at h
        next hkw =>
          split at h
          · exact Except.noConfusion h
          · rename_i st heq
            cases h
            obtain ⟨h1, h2, h3, -⟩ := searchFold_preserves _ _ _ _ heq
            exact Or.inl ⟨h1, h2, h3⟩
        next hkw =>
          cases h; exact Or.inl ⟨rfl, rfl, rfl⟩
      next hb3 =>
        split at h
        next hb4 =>
          simp only [dispatchVisit] at h
          split at h
          next huq =>
            split at h
            · exact Except.noConfusion h
            · rename_i st heq
              cases h
              obtain ⟨h1, h2, h3, -⟩ := visitFold_preserves _ _ _ _ heq
              exact Or.inl ⟨h1, h2, h3⟩
          next huq =>
            cases h; exact Or.inl ⟨rfl, rfl, rfl⟩
        next hb4 =>
          cases h; exact Or.inl ⟨rfl, rfl, rfl⟩

/-- A dispatch that breaks the loop leaves `allowAnswer` as it found it (the
exit branches of the answer action do not touch the toggles). -/
theorem dispatch_exit_allowAnswer (env : Env) (q : String) (m : Nat) (cq : String)
    (a : StepAction) (t : AgentState) (s1 : AgentState)
    (h : dispatch env q m cq a t = .ok (.exit s1)) :
    s1.allowAnswer = t.allowAnswer := by
  simp only [dispatch] at h
  split at h
  next hb1 =>
    simp only [dispatchAnswer] at h
    repeat' split at h
    all_goals cases h
    all_goals rfl
  next hb1 =>
    split at h
    next hb2 => cases h
    next hb2 =>
      split at h
      next hb3 =>
        simp only [dispatchSearch] at h
        split at h
        next hkw =>
          split at h
          · exact Except.noConfusion h
          · rename_i st heq; cases h
        next hkw => cases h
      next hb3 =>
        split at h
        next hb4 =>
          simp only [dispatchVisit] at h
          split at h
          next huq =>
            split at h
            · exact Except.noConfusion h
            · rename_i st heq; cases h
          next huq => cases h
        next hb4 => cases h

/-- A dispatch of anything but a guarded reflect decision leaves
`allowReflect` as it found it. -/
theorem dispatch_allowReflect (env : Env) (q : String) (m : Nat) (cq : String)
    (a : StepAction) (t : AgentState) (out : StepOutcome)
    (h : dispatch env q m cq a t = .ok out)
    (hnr : ¬(a.action = "reflect" ∧ a.questionsToAnswer.isSome = true)) :
    out.state.allowReflect = t.allowReflect := by
  simp only [dispatch] at h
  split at h
  next hb1 =>
    simp only [dispatchAnswer] at h
    repeat' split at h
    all_goals (cases h; simp [StepOutcome.state])
  next hb1 =>
    split at h
    next hb2 =>
      exact absurd (by simpa [Bool.and_eq_true] using hb2) hnr
    next hb2 =>
      split at h
      next hb3 =>
        simp only [dispatchSearch] at h
        split at h
        next hkw =>
          split at h
          · exact Except.noConfusion h
          · rename_i st heq
            cases h
            obtain ⟨-, -, -, hr, -⟩ := searchFold_preserves _ _ _ _ heq
            simpa [StepOutcome.state] using hr
        next hkw =>
          cases h
          simp [StepOutcome.state]
      next hb3 =>
        split at h
        next hb4 =>
          simp only [dispatchVisit] at h
          split at h
          next huq =>
            split at h
            · exact Except.noConfusion h
            · rename_i st heq
              cases h
              obtain ⟨-, -, -, hr, -⟩ := visitFold_preserves _ _ _ _ heq
              simpa [StepOutcome.state] using hr
          next huq =>
            cases h
            simp [StepOutcome.state]
        next hb4 =>
          cases h
          rfl

/-- A dispatch that is not a guarded search decision preserves disjointness
of the visited list and the frontier. -/
theorem dispatch_disjoint (env : Env) (q : String) (m : Nat) (cq : String)
    (a : StepAction) (t : AgentState) (out : StepOutcome)
    (h : dispatch env q m cq a t = .ok out)
    (hns : ¬(a.action = "search" ∧ truthyString a.searchQuery = true))
    (hd : URLsDisjoint t.visitedURLs t.allURLs) :
    URLsDisjoint out.state.visitedURLs out.state.allURLs := by
  simp only [dispatch] at h
  split at h
  next hb1 =>
    simp only [dispatchAnswer] at h
    repeat' split at h
    all_goals (cases h; exact hd)
  next hb1 =>
    split at h
    next hb2 =>
      cases h
      simp only [StepOutcome.state, dispatchReflect]
      split <;> exact hd
    next hb2 =>
      split at h
      next hb3 =>
        exact absurd (by simpa [Bool.and_eq_true] using hb3) hns
      next hb3 =>
        split at h
        next hb4 =>
          simp only [dispatchVisit] at h
          split at h
          next huq =>
            split at h
            · exact Except.noConfusion h
            · rename_i st heq
              cases h
              have hres := visitFold_disjoint _ _ _ _ heq hd
              exact hres
          next huq =>
            cases h
            exact hd
        next hb4 =>
          cases h
          exact hd

/-! ### Step-level consequences -/

/-- Case analysis of a non-throwing step: the bad-attempt data is untouched
(and `allowAnswer` re-enabled), or the step was a non-definitive answer to
the original question below the ceiling. -/
theorem runStep_badState (env : Env) (q : String) (b m : Nat) (s : AgentState)
    (out : StepOutcome) (h : runStep env q b m s = .ok out) :
    (out.state.badAttempts = s.badAttempts ∧
     out.state.badContext = s.badContext ∧
     out.state.allowAnswer = true) ∨
    (out.state.badAttempts = s.badAttempts + 1 ∧
     out.state.badContext.length = s.badContext.length + 1 ∧
     out.state.allowAnswer = false ∧ s.badAttempts < m ∧
     ∃ a, env.oracle (s.totalStep + 1) = some a ∧ a.action = "answer" ∧
       currentQuestion q s = q ∧
       (env.evaluateAnswer q a.answer).1.is_definitive = false) := by
  obtain ⟨a, ho⟩ := runStep_ok_oracle _ _ _ _ _ _ h
  have h50 := runStep_ok_not_over _ _ _ _ _ _ h
  rw [runStep_eq_dispatch _ _ _ _ _ _ h50 ho] at h
  rcases dispatch_badState _ _ _ _ _ _ _ h with h1 | h1
  · exact Or.inl ⟨h1.1, h1.2.1, h1.2.2⟩
  · obtain ⟨e1, e2, e3, e4, e5, e6, e7⟩ := h1
    rw [e6] at e7
    exact Or.inr ⟨e1, e2, e3, e4, a, ho, e5, e6, e7⟩

/-- The bad-attempt counter never leaves `[0, maxBadAttempts]` in a step. -/
theorem runStep_badAttempts_le (env : Env) (q : String) (b m : Nat)
    (s : AgentState) (out : StepOutcome)
    (h : runStep env q b m s = .ok out) (hle : s.badAttempts ≤ m) :
    out.state.badAttempts ≤ m := by
  rcases runStep_badState _ _ _ _ _ _ h with h1 | h1
  · rw [h1.1]; exact hle
  · rw [h1.1]; exact h1.2.2.2.1

/-- The record count tracks the counter across a step. -/
theorem runStep_badInv (env : Env) (q : String) (b m : Nat)
    (s : AgentState) (out : StepOutcome)
    (h : runStep env q b m s = .ok out)
    (hinv : s.badContext.length = s.badAttempts) :
    out.state.badContext.length = out.state.badAttempts := by
  rcases runStep_badState _ _ _ _ _ _ h with h1 | h1
  · rw [h1.1, h1.2.1, hinv]
  · rw [h1.1, h1.2.1, hinv]

/-- A step that breaks the loop leaves `allowAnswer` enabled. -/
theorem runStep_exit_allowAnswer (env : Env) (q : String) (b m : Nat)
    (s s1 : AgentState) (h : runStep env q b m s = .ok (.exit s1)) :
    s1.allowAnswer = true := by
  obtain ⟨a, ho⟩ := runStep_ok_oracle _ _ _ _ _ _ h
  have h50 := runStep_ok_not_over _ _ _ _ _ _ h
  rw [runStep_eq_dispatch _ _ _ _ _ _ h50 ho] at h
  have hres := dispatch_exit_allowAnswer _ _ _ _ _ _ _ h
  exact hres

/-- A step whose decision is not a guarded reflect leaves the reflect toggle
re-enabled. -/
theorem runStep_allowReflect (env : Env) (q : String) (b m : Nat)
    (s : AgentState) (out : StepOutcome)
    (h : runStep env q b m s = .ok out)
    (hnr : ∀ a2, env.oracle (s.totalStep + 1) = some a2 →
      ¬(a2.action = "reflect" ∧ a2.questionsToAnswer.isSome = true)) :
    out.state.allowReflect = true := by
  obtain ⟨a, ho⟩ := runStep_ok_oracle _ _ _ _ _ _ h
  have h50 := runStep_ok_not_over _ _ _ _ _ _ h
  rw [runStep_eq_dispatch _ _ _ _ _ _ h50 ho] at h
  have hres := dispatch_allowReflect _ _ _ _ _ _ _ h (hnr a ho)
  exact hres

/-! ### Loop-level invariants -/

/-- Along any terminating prefix of the loop, the counter stays at or below
the ceiling and keeps counting the records. -/
theorem runLoop_badBound (env : Env) (q : String) (b m : Nat) (fuel : Nat)
    (s s2 : AgentState) (h : runLoop env q b m fuel s = .ok (some s2))
    (hle : s.badAttempts ≤ m) (hinv : s.badContext.length = s.badAttempts) :
    s2.badAttempts ≤ m ∧ s2.badContext.length = s2.badAttempts := by
  induction fuel generalizing s with
  | zero => simp [runLoop] at h
  | succ n ih =>
    unfold runLoop at h
    split at h
    · cases hs : runStep env q b m s with
      | error e => simp only [hs] at h; exact Except.noConfusion h
      | ok o =>
        simp only [hs] at h
        cases o with
        | exit s1 =>
          cases h
          exact ⟨runStep_badAttempts_le _ _ _ _ _ _ hs hle,
            runStep_badInv _ _ _ _ _ _ hs hinv⟩
        | proceed s1 =>
          exact ih _ h (runStep_badAttempts_le _ _ _ _ _ _ hs hle)
            (runStep_badInv _ _ _ _ _ _ hs hinv)
    · cases h
      exact ⟨hle, hinv⟩

/-- When the loop genuinely exits, either the last step was a `break` (which
leaves `allowAnswer` enabled) or the budget is spent. -/
theorem runLoop_exit_allowAnswer (env : Env) (q : String) (b m : Nat)
    (fuel : Nat) (s s2 : AgentState)
    (h : runLoop env q b m fuel s = .ok (some s2)) (hle : s.badAttempts ≤ m) :
    s2.allowAnswer = true ∨ b ≤ s2.usage := by
  induction fuel generalizing s with
  | zero => simp [runLoop] at h
  | succ n ih =>
    unfold runLoop at h
    split at h
    · cases hs : runStep env q b m s with
      | error e => simp only [hs] at h; exact Except.noConfusion h
      | ok o =>
        simp only [hs] at h
        cases o with
        | exit s1 =>
          cases h
          exact Or.inl (runStep_exit_allowAnswer _ _ _ _ _ _ hs)
        | proceed s1 =>
          exact ih _ h (runStep_badAttempts_le _ _ _ _ _ _ hs hle)
    · rename_i hcond
      cases h
      have hub : ¬ s2.usage < b := fun hu => hcond ⟨hu, hle⟩
      exact Or.inr (Nat.le_of_not_lt hub)

/-! ### Claims -/

/-- C1 (counterexample): the Visited-URL list and the URL Frontier are NOT
always disjoint.  In the `envVisitSearchAnswer` run, `http://a` is visited at
step 1, a step-2 search merges the same URL back into the frontier without
checking the visited list, and the accepted final state carries `http://a` in
both structures. -/
theorem C1_counterexample :
    (match getResponse envVisitSearchAnswer "Q" 10000 3 10 with
     | .ok (some (_, s)) =>
        s.visitedURLs.contains "http://a" && s.allURLs.any (fun p => p.1 == "http://a")
     | _ => false) = true := by rfl

/-- C1 (amended): the visit action does move URLs from the frontier to the
visited list, and every step whose decision is not a guarded `search`
preserves disjointness of the two — but a search step may re-insert an
already-visited URL into the frontier, which is what breaks the claim. -/
theorem C1_amended (env : Env) (question : String) (tokenBudget maxBadAttempts : Nat)
    (s : AgentState) (out : StepOutcome)
    (hd : URLsDisjoint s.visitedURLs s.allURLs)
    (hns : ∀ a, env.oracle (s.totalStep + 1) = some a →
      ¬(a.action = "search" ∧ truthyString a.searchQuery = true))
    (hrun : runStep env question tokenBudget maxBadAttempts s = .ok out) :
    URLsDisjoint out.state.visitedURLs out.state.allURLs := by
  obtain ⟨a, ho⟩ := runStep_ok_oracle _ _ _ _ _ _ hrun
  have h50 := runStep_ok_not_over _ _ _ _ _ _ hrun
  rw [runStep_eq_dispatch _ _ _ _ _ _ h50 ho] at hrun
  have hres := dispatch_disjoint _ _ _ _ _ _ _ hrun (hns a ho) hd
  exact hres

/-- C1 (witness): the amended preservation applied to a concrete non-search
step from the initial state. -/
theorem C1_amended_witness :
    URLsDisjoint (stepResultOf envDance "Q" 1000 3 (initialState "Q")).visitedURLs
      (stepResultOf envDance "Q" 1000 3 (initialState "Q")).allURLs :=
  C1_amended envDance "Q" 1000 3 (initialState "Q")
    (.proceed (stepResultOf envDance "Q" 1000 3 (initialState "Q")))
    (by intro u hu p hp; simp [initialState] at hu)
    (by
      intro a ha
      have ha2 : ({action := "dance"} : StepAction) = a := by
        simpa [envDance, envVisitSearchAnswer] using ha
      intro hc
      rw [← ha2] at hc
      simp at hc)
    rfl

/-- C2 (counterexample): the beast-mode final step CAN fail the run.  With a
100-token budget, a 60-token first step and `maxBadAttempts = 0`, the loop
breaks unanswered and the beast-mode pre-flight check throws the
budget-exceeded error instead of returning an answer. -/
theorem C2_counterexample :
    getResponse envBadAnswer60 "Q" 100 0 10 = .error (budgetError 60 100) := by rfl

/-- C2 (amended): whenever the run does return normally with the loop
unanswered, the beast-mode schema's action enum is exactly `["answer"]` and
the returned result is the beast decision; the step can still fail the run
when the pre-flight budget check trips (see the counterexample). -/
theorem C2_amended (env : Env) (question : String)
    (tokenBudget maxBadAttempts fuel : Nat) (a : StepAction) (s2 : AgentState)
    (hrun : getResponse env question tokenBudget maxBadAttempts fuel = .ok (some (a, s2)))
    (hna : s2.isAnswered = false) :
    s2.allowAnswer = true ∧ env.beastOracle = some a ∧
    (getSchema false false s2.allowAnswer false).actionEnum = ["answer"] := by
  cases hl : runLoop env question tokenBudget maxBadAttempts fuel (initialState question) with
  | error e =>
    simp only [getResponse, hl] at hrun
    exact Except.noConfusion hrun
  | ok o =>
    cases o with
    | none =>
      simp only [getResponse, hl] at hrun
      exact Option.noConfusion (Except.ok.inj hrun)
    | some s0 =>
      simp only [getResponse, hl] at hrun
      split at hrun
      next hia =>
        cases hrun
        rw [hna] at hia
        exact Bool.noConfusion hia
      next hia =>
        split at hrun
        next hb => exact Except.noConfusion hrun
        next hb =>
          cases hbe : env.beastOracle with
          | none => simp only [hbe] at hrun; exact Except.noConfusion hrun
          | some a0 =>
            simp only [hbe] at hrun
            cases hrun
            have hAA := runLoop_exit_allowAnswer _ _ _ _ _ _ _ hl (Nat.zero_le _)
            rcases hAA with hA | hA
            · refine ⟨hA, rfl, ?_⟩
              show (getSchema false false s0.allowAnswer false).actionEnum = ["answer"]
              rw [hA]
              rfl
            · exfalso
              apply hb
              show tokenBudget < s0.usage + 50
              omega

/-- C2 (witness): a run that breaks unanswered with budget headroom does
return the beast decision under the answer-only schema. -/
theorem C2_amended_witness :
    (runPairOf envBadAnswer10 "Q" 10000 0 10).2.allowAnswer = true ∧
    envBadAnswer10.beastOracle = some (runPairOf envBadAnswer10 "Q" 10000 0 10).1 ∧
    (getSchema false false (runPairOf envBadAnswer10 "Q" 10000 0 10).2.allowAnswer
      false).actionEnum = ["answer"] :=
  C2_amended envBadAnswer10 "Q" 10000 0 10
    (runPairOf envBadAnswer10 "Q" 10000 0 10).1
    (runPairOf envBadAnswer10 "Q" 10000 0 10).2 rfl rfl

/-- C3 (counterexample): when the budget is exhausted before a definitive
answer, the run raises the budget-exceeded error instead of returning a
beast-mode answer, and the tracked usage at loop exit (1000) exceeds the
100-token budget by far more than the 50-token estimated step cost. -/
theorem C3_counterexample :
    getResponse envBigSearch "Q" 100 3 10 = .error (budgetError 1000 100) ∧
    100 + 50 < (loopExitOf envBigSearch "Q" 100 3 10).usage := ⟨rfl, by decide⟩

/-- C3 (amended): a run whose loop exits unanswered with the budget spent
always ends in the thrown budget-exceeded error of the beast-mode pre-flight
check; the returned answer promised by the claim never materializes. -/
theorem C3_amended (env : Env) (question : String)
    (tokenBudget maxBadAttempts fuel : Nat) (s2 : AgentState)
    (hrun : runLoop env question tokenBudget maxBadAttempts fuel (initialState question) =
      .ok (some s2))
    (hna : s2.isAnswered = false) (hex : tokenBudget ≤ s2.usage) :
    getResponse env question tokenBudget maxBadAttempts fuel =
      .error (budgetError s2.usage tokenBudget) := by
  simp only [getResponse, hrun]
  split
  next hia =>
    rw [hna] at hia
    exact Bool.noConfusion hia
  next hia =>
    split
    next hb => rfl
    next hb =>
      exfalso
      apply hb
      show tokenBudget < s2.usage + 50
      omega

/-- C3 (witness): the amended behaviour at the concrete exhausted run. -/
theorem C3_amended_witness :
    getResponse envBigSearch "Q" 100 3 10 =
      .error (budgetError (loopExitOf envBigSearch "Q" 100 3 10).usage 100) :=
  C3_amended envBigSearch "Q" 100 3 10 (loopExitOf envBigSearch "Q" 100 3 10)
    rfl rfl (by decide)

/-- C4: a non-definitive answer to the original question below the
bad-attempt ceiling appends exactly the Bad-Attempt Record built from the
evaluator and analyzer outputs, increments the counter by one, disables
`answer` (so the next schema omits it, and it is re-enabled after the next
step unless that step is itself a fresh bad attempt), clears the diary and
resets the intra-attempt step counter while the global counter advances
normally. -/
theorem C4_theorem (env : Env) (question : String) (tokenBudget maxBadAttempts : Nat)
    (s s2 : AgentState) (a : StepAction)
    (ho : env.oracle (s.totalStep + 1) = some a)
    (hact : a.action = "answer")
    (hcq : currentQuestion question s = question)
    (hlt : s.badAttempts < maxBadAttempts)
    (hdef : (env.evaluateAnswer question a.answer).1.is_definitive = false)
    (hrun : runStep env question tokenBudget maxBadAttempts s = .ok (.proceed s2)) :
    s2.badAttempts = s.badAttempts + 1 ∧
    s2.badContext = s.badContext ++ [badRecordOf env question s a] ∧
    s2.allowAnswer = false ∧
    s2.diaryContext = [] ∧
    s2.step = 0 ∧
    s2.totalStep = s.totalStep + 1 ∧
    (∀ r rd se, "answer" ∉ (getSchema r rd s2.allowAnswer se).actionEnum) ∧
    (∀ out2, runStep env question tokenBudget maxBadAttempts s2 = .ok out2 →
      out2.state.allowAnswer = true ∨ out2.state.badAttempts = s2.badAttempts + 1) := by
  have h50 := runStep_ok_not_over _ _ _ _ _ _ hrun
  rw [runStep_eq_dispatch _ _ _ _ _ _ h50 ho] at hrun
  simp only [dispatch] at hrun
  split at hrun
  next hb1 =>
    simp only [dispatchAnswer] at hrun
    split at hrun
    next hcq2 =>
      split at hrun
      next hle => exact absurd hle (Nat.not_le_of_lt hlt)
      next hle =>
        split at hrun
        next hdef2 =>
          rw [hcq] at hdef2
          rw [hdef] at hdef2
          exact Bool.noConfusion hdef2
        next hdef2 =>
          cases hrun
          refine ⟨rfl, rfl, rfl, rfl, rfl, rfl, ?_, ?_⟩
          · intro r rd se hmem
            have hfalse := (answer_mem_actionEnum r rd _ se).mp hmem
            exact Bool.noConfusion hfalse
          · intro out2 hrun2
            rcases runStep_badState _ _ _ _ _ _ hrun2 with h1 | h1
            · exact Or.inl h1.2.2
            · exact Or.inr h1.1
    next hcq2 =>
      exact absurd (by simp [hcq]) hcq2
  next hb1 =>
    exact absurd (by simp [hact]) hb1

/-- C4 (witness): the bad-attempt cycle at the concrete first step of a
non-definitive run. -/
theorem C4_witness :
    (stepResultOf envBadAnswer10 "Q" 1000 3 (initialState "Q")).badAttempts =
        (initialState "Q").badAttempts + 1 ∧
    (stepResultOf envBadAnswer10 "Q" 1000 3 (initialState "Q")).badContext =
        (initialState "Q").badContext ++
          [badRecordOf envBadAnswer10 "Q" (initialState "Q")
            {action := "answer", answer := "ans"}] ∧
    (stepResultOf envBadAnswer10 "Q" 1000 3 (initialState "Q")).allowAnswer = false ∧
    (stepResultOf envBadAnswer10 "Q" 1000 3 (initialState "Q")).diaryContext = [] ∧
    (stepResultOf envBadAnswer10 "Q" 1000 3 (initialState "Q")).step = 0 ∧
    (stepResultOf envBadAnswer10 "Q" 1000 3 (initialState "Q")).totalStep =
        (initialState "Q").totalStep + 1 ∧
    (∀ r rd se, "answer" ∉ (getSchema r rd
        (stepResultOf envBadAnswer10 "Q" 1000 3 (initialState "Q")).allowAnswer
        se).actionEnum) ∧
    (∀ out2, runStep envBadAnswer10 "Q" 1000 3
        (stepResultOf envBadAnswer10 "Q" 1000 3 (initialState "Q")) = .ok out2 →
      out2.state.allowAnswer = true ∨
      out2.state.badAttempts =
        (stepResultOf envBadAnswer10 "Q" 1000 3 (initialState "Q")).badAttempts + 1) :=
  C4_theorem envBadAnswer10 "Q" 1000 3 (initialState "Q")
    (stepResultOf envBadAnswer10 "Q" 1000 3 (initialState "Q"))
    {action := "answer", answer := "ans"} rfl rfl rfl (by decide) rfl rfl

/-- C5: the bad-attempt counter changes in a step only by the non-definitive
original-question answer branch (then by exactly one), and along any
terminating run the number of recorded Bad-Attempt Records never exceeds
`maxBadAttempts + 1` (indeed never exceeds `maxBadAttempts`). -/
theorem C5_theorem (env : Env) (question : String) (tokenBudget maxBadAttempts : Nat) :
    (∀ s out, runStep env question tokenBudget maxBadAttempts s = .ok out →
      out.state.badAttempts = s.badAttempts ∨
      (out.state.badAttempts = s.badAttempts + 1 ∧ s.badAttempts < maxBadAttempts ∧
        ∃ a, env.oracle (s.totalStep + 1) = some a ∧ a.action = "answer" ∧
          currentQuestion question s = question ∧
          (env.evaluateAnswer question a.answer).1.is_definitive = false)) ∧
    (∀ fuel s2, runLoop env question tokenBudget maxBadAttempts fuel
        (initialState question) = .ok (some s2) →
      s2.badContext.length ≤ maxBadAttempts + 1) := by
  constructor
  · intro s out h
    rcases runStep_badState _ _ _ _ _ _ h with h1 | h1
    · exact Or.inl h1.1
    · obtain ⟨e1, -, -, e4, a, ho, e5, e6, e7⟩ := h1
      exact Or.inr ⟨e1, e4, a, ho, e5, e6, e7⟩
  · intro fuel s2 h
    obtain ⟨hle, hinv⟩ := runLoop_badBound _ _ _ _ _ _ _ h (Nat.zero_le _) rfl
    rw [hinv]
    exact Nat.le_succ_of_le hle

/-- C5 (witness): the two parts of the invariant at a concrete bad-attempt
step and at a concrete terminating run. -/
theorem C5_witness :
    ((stepResultOf envBadAnswer10 "Q" 1000 3 (initialState "Q")).badAttempts =
        (initialState "Q").badAttempts ∨
      ((stepResultOf envBadAnswer10 "Q" 1000 3 (initialState "Q")).badAttempts =
          (initialState "Q").badAttempts + 1 ∧
        (initialState "Q").badAttempts < 3 ∧
        ∃ a, envBadAnswer10.oracle ((initialState "Q").totalStep + 1) = some a ∧
          a.action = "answer" ∧ currentQuestion "Q" (initialState "Q") = "Q" ∧
          (envBadAnswer10.evaluateAnswer "Q" a.answer).1.is_definitive = false)) ∧
    (loopExitOf envBadAnswer10 "Q" 1000 3 10).badContext.length ≤ 3 + 1 :=
  ⟨(C5_theorem envBadAnswer10 "Q" 1000 3).1 (initialState "Q")
      (.proceed (stepResultOf envBadAnswer10 "Q" 1000 3 (initialState "Q"))) rfl,
   (C5_theorem envBadAnswer10 "Q" 1000 3).2 10
      (loopExitOf envBadAnswer10 "Q" 1000 3 10) rfl⟩

/-- C6: a reflect step with surviving sub-questions pushes all survivors onto
the Gap Queue, appends the same survivors to the all-time question list, and
then pushes the original question onto the queue tail after them. -/
theorem C6_theorem (env : Env) (question : String) (tokenBudget maxBadAttempts : Nat)
    (s s2 : AgentState) (a : StepAction) (qs : List String)
    (ho : env.oracle (s.totalStep + 1) = some a)
    (hact : a.action = "reflect")
    (hqs : a.questionsToAnswer = some qs)
    (hsur : survivingQuestions env s qs ≠ [])
    (hrun : runStep env question tokenBudget maxBadAttempts s = .ok (.proceed s2)) :
    s2.gaps = s.gaps.tail ++ survivingQuestions env s qs ++ [question] ∧
    s2.allQuestions = s.allQuestions ++ survivingQuestions env s qs := by
  have h50 := runStep_ok_not_over _ _ _ _ _ _ hrun
  rw [runStep_eq_dispatch _ _ _ _ _ _ h50 ho] at hrun
  simp only [dispatch] at hrun
  split at hrun
  next hb1 => exact absurd hb1 (by rw [hact]; decide)
  next hb1 =>
    split at hrun
    next hb2 =>
      cases hrun
      simp only [dispatchReflect, StepOutcome.state, hqs, Option.getD_some]
      split
      next hne => exact ⟨rfl, rfl⟩
      next hne =>
        exfalso
        apply hsur
        have hempty : (survivingQuestions env (postOracle env s a) qs).isEmpty = true := by
          simpa using hne
        exact List.isEmpty_iff.mp hempty
    next hb2 =>
      exact absurd (by simp [hact, hqs]) hb2

/-- C6 (witness): a concrete reflect step whose two proposals survive. -/
theorem C6_witness :
    (stepResultOf envReflectNew "Q" 1000 3 (initialState "Q")).gaps =
        (initialState "Q").gaps.tail ++
          survivingQuestions envReflectNew (initialState "Q") ["A", "B"] ++ ["Q"] ∧
    (stepResultOf envReflectNew "Q" 1000 3 (initialState "Q")).allQuestions =
        (initialState "Q").allQuestions ++
          survivingQuestions envReflectNew (initialState "Q") ["A", "B"] :=
  C6_theorem envReflectNew "Q" 1000 3 (initialState "Q")
    (stepResultOf envReflectNew "Q" 1000 3 (initialState "Q"))
    {action := "reflect", questionsToAnswer := some ["A", "B"]} ["A", "B"]
    rfl rfl rfl (by decide) rfl

/-- C7 (counterexample): after a reflect step whose two proposals are both
dropped by the deduplicator, the Gap Queue is NOT unchanged: the step popped
the current question and pushed nothing, so the length drops from 1 to 0
(while `reflect` is indeed disallowed for the next step). -/
theorem C7_counterexample :
    survivingQuestions envReflectDup (initialState "Q") ["A", "B"] = [] ∧
    (initialState "Q").gaps.length = 1 ∧
    (stepResultOf envReflectDup "Q" 1000 3 (initialState "Q")).gaps.length = 0 ∧
    (stepResultOf envReflectDup "Q" 1000 3 (initialState "Q")).allowReflect = false :=
  ⟨rfl, rfl, rfl, rfl⟩

/-- C7 (amended): a reflect step with no surviving sub-question pushes
nothing onto the Gap Queue — the queue after the step is the pre-step queue
with the popped current question removed — leaves the all-time question list
unchanged, and disables `reflect` for the immediately following step only
(the following schema omits it, and any following step whose decision is not
a guarded reflect re-enables it). -/
theorem C7_amended (env : Env) (question : String) (tokenBudget maxBadAttempts : Nat)
    (s s2 : AgentState) (a : StepAction) (qs : List String)
    (ho : env.oracle (s.totalStep + 1) = some a)
    (hact : a.action = "reflect")
    (hqs : a.questionsToAnswer = some qs)
    (hsur : survivingQuestions env s qs = [])
    (hrun : runStep env question tokenBudget maxBadAttempts s = .ok (.proceed s2)) :
    s2.gaps = s.gaps.tail ∧
    s2.allQuestions = s.allQuestions ∧
    s2.allowReflect = false ∧
    (∀ rd an se, "reflect" ∉ (getSchema s2.allowReflect rd an se).actionEnum) ∧
    (∀ out2, runStep env question tokenBudget maxBadAttempts s2 = .ok out2 →
      (∀ a2, env.oracle (s2.totalStep + 1) = some a2 →
        ¬(a2.action = "reflect" ∧ a2.questionsToAnswer.isSome = true)) →
      out2.state.allowReflect = true) := by
  have h50 := runStep_ok_not_over _ _ _ _ _ _ hrun
  rw [runStep_eq_dispatch _ _ _ _ _ _ h50 ho] at hrun
  simp only [dispatch] at hrun
  split at hrun
  next hb1 => exact absurd hb1 (by rw [hact]; decide)
  next hb1 =>
    split at hrun
    next hb2 =>
      cases hrun
      simp only [dispatchReflect, StepOutcome.state, hqs, Option.getD_some]
      split
      next hne =>
        exfalso
        have hfalse : (survivingQuestions env s qs).isEmpty = false := by
          simpa using hne
        rw [hsur] at hfalse
        exact Bool.noConfusion hfalse
      next hne =>
        refine ⟨rfl, rfl, rfl, ?_, ?_⟩
        · intro rd an se hmem
          have hfalse := (reflect_mem_actionEnum _ rd an se).mp hmem
          exact Bool.noConfusion hfalse
        · intro out2 hrun2 hnr
          exact runStep_allowReflect _ _ _ _ _ _ hrun2 hnr
    next hb2 =>
      exact absurd (by simp [hact, hqs]) hb2

/-- C7 (witness): the amended behaviour at the concrete all-duplicates
reflect step. -/
theorem C7_amended_witness :
    (stepResultOf envReflectDup "Q" 1000 3 (initialState "Q")).gaps =
        (initialState "Q").gaps.tail ∧
    (stepResultOf envReflectDup "Q" 1000 3 (initialState "Q")).allQuestions =
        (initialState "Q").allQuestions ∧
    (stepResultOf envReflectDup "Q" 1000 3 (initialState "Q")).allowReflect = false ∧
    (∀ rd an se, "reflect" ∉ (getSchema
        (stepResultOf envReflectDup "Q" 1000 3 (initialState "Q")).allowReflect
        rd an se).actionEnum) ∧
    (∀ out2, runStep envReflectDup "Q" 1000 3
        (stepResultOf envReflectDup "Q" 1000 3 (initialState "Q")) = .ok out2 →
      (∀ a2, envReflectDup.oracle
          ((stepResultOf envReflectDup "Q" 1000 3 (initialState "Q")).totalStep + 1) =
            some a2 →
        ¬(a2.action = "reflect" ∧ a2.questionsToAnswer.isSome = true)) →
      out2.state.allowReflect = true) :=
  C7_amended envReflectDup "Q" 1000 3 (initialState "Q")
    (stepResultOf envReflectDup "Q" 1000 3 (initialState "Q"))
    {action := "reflect", questionsToAnswer := some ["A", "B"]} ["A", "B"]
    rfl rfl rfl rfl rfl

/-- C8 (counterexample): a well-formed decision whose action is outside every
schema (`"dance"` is in no action enum) is NOT a hard failure: the step
returns normally, is silently skipped, and leaves the diary, knowledge and
bad-attempt record untouched. -/
theorem C8_counterexample :
    runStep envDance "Q" 1000 3 (initialState "Q") =
      .ok (.proceed (stepResultOf envDance "Q" 1000 3 (initialState "Q"))) ∧
    (stepResultOf envDance "Q" 1000 3 (initialState "Q")).diaryContext = [] ∧
    (stepResultOf envDance "Q" 1000 3 (initialState "Q")).allKnowledge = [] ∧
    (stepResultOf envDance "Q" 1000 3 (initialState "Q")).badContext = [] ∧
    "dance" ∉ (getSchema true false true true).actionEnum :=
  ⟨rfl, rfl, rfl, rfl, by decide⟩

/-- C8 (amended): a malformed (unparsable) oracle reply does raise a hard
error, but a parsed decision matching no dispatch guard is silently skipped:
the step returns normally with no dispatch effect (only the pop of the
current question, the counters and the usage tracking happen). -/
theorem C8_amended (env : Env) (question : String) (tokenBudget maxBadAttempts : Nat)
    (s : AgentState) :
    (env.oracle (s.totalStep + 1) = none → ¬ tokenBudget < s.usage + 50 →
      runStep env question tokenBudget maxBadAttempts s =
        .error "Unexpected token in JSON") ∧
    (∀ a s2, env.oracle (s.totalStep + 1) = some a →
      ¬ a.action = "answer" →
      ¬(a.action = "reflect" ∧ a.questionsToAnswer.isSome = true) →
      ¬(a.action = "search" ∧ truthyString a.searchQuery = true) →
      ¬(a.action = "visit" ∧ truthyLen a.URLTargets = true) →
      runStep env question tokenBudget maxBadAttempts s = .ok (.proceed s2) →
      s2.diaryContext = s.diaryContext ∧ s2.allKnowledge = s.allKnowledge ∧
      s2.badContext = s.badContext ∧ s2.gaps = s.gaps.tail ∧
      s2.allURLs = s.allURLs ∧ s2.visitedURLs = s.visitedURLs ∧
      s2.badAttempts = s.badAttempts) := by
  constructor
  · intro hnone h50
    have h502 : ¬ tokenBudget < (stepPrelude s).usage + 50 := h50
    have hnone2 : env.oracle (stepPrelude s).totalStep = none := hnone
    simp only [runStep, if_neg h502, hnone2]
  · intro a s2 ho hna hnr hns hnv hrun
    have h50 := runStep_ok_not_over _ _ _ _ _ _ hrun
    rw [runStep_eq_dispatch _ _ _ _ _ _ h50 ho] at hrun
    simp only [dispatch] at hrun
    split at hrun
    next hb1 => exact absurd (by simpa using hb1) hna
    next hb1 =>
      split at hrun
      next hb2 => exact absurd (by simpa [Bool.and_eq_true] using hb2) hnr
      next hb2 =>
        split at hrun
        next hb3 => exact absurd (by simpa [Bool.and_eq_true] using hb3) hns
        next hb3 =>
          split at hrun
          next hb4 => exact absurd (by simpa [Bool.and_eq_true] using hb4) hnv
          next hb4 =>
            cases hrun
            exact ⟨rfl, rfl, rfl, rfl, rfl, rfl, rfl⟩

/-- C8 (witness): the two amended behaviours at concrete inputs — a parse
failure raising the error, and a `"dance"` decision skipped silently. -/
theorem C8_amended_witness :
    runStep envNoParse "Q" 1000 3 (initialState "Q") =
      .error "Unexpected token in JSON" ∧
    ((stepResultOf envDance "Q" 1000 3 (initialState "Q")).diaryContext =
        (initialState "Q").diaryContext ∧
      (stepResultOf envDance "Q" 1000 3 (initialState "Q")).allKnowledge =
        (initialState "Q").allKnowledge ∧
      (stepResultOf envDance "Q" 1000 3 (initialState "Q")).badContext =
        (initialState "Q").badContext ∧
      (stepResultOf envDance "Q" 1000 3 (initialState "Q")).gaps =
        (initialState "Q").gaps.tail ∧
      (stepResultOf envDance "Q" 1000 3 (initialState "Q")).allURLs =
        (initialState "Q").allURLs ∧
      (stepResultOf envDance "Q" 1000 3 (initialState "Q")).visitedURLs =
        (initialState "Q").visitedURLs ∧
      (stepResultOf envDance "Q" 1000 3 (initialState "Q")).badAttempts =
        (initialState "Q").badAttempts) :=
  ⟨(C8_amended envNoParse "Q" 1000 3 (initialState "Q")).1 rfl (by decide),
   (C8_amended envDance "Q" 1000 3 (initialState "Q")).2 {action := "dance"}
      (stepResultOf envDance "Q" 1000 3 (initialState "Q"))
      rfl (by decide) (by decide) (by decide) (by decide) rfl⟩

/-- Membership in the filtered target list implies membership in the
request. -/
theorem mem_of_mem_uniqueTargets (visited targets : List String) (u : String)
    (hu : u ∈ uniqueTargets visited targets) : u ∈ targets := by
  unfold uniqueTargets at hu
  split at hu
  · exact hu
  · exact (List.mem_filter.mp hu).1

/-- The dispatch reduces to the visit branch when the decision is a guarded
visit. -/
theorem dispatch_eq_visit (env : Env) (q : String) (m : Nat) (cq : String)
    (a : StepAction) (t : AgentState)
    (hact : a.action = "visit") (hts : truthyLen a.URLTargets = true) :
    dispatch env q m cq a t = dispatchVisit env a t := by
  simp only [dispatch]
  rw [if_neg (show ¬(a.action == "answer") = true by simp [hact])]
  rw [if_neg (show ¬(a.action == "reflect" && a.questionsToAnswer.isSome) = true by
    simp [hact])]
  rw [if_neg (show ¬(a.action == "search" && truthyString a.searchQuery) = true by
    simp [hact])]
  rw [if_pos (show (a.action == "visit" && truthyLen a.URLTargets) = true by
    simp [hact, hts])]

/-- One rejecting fetch among the not-yet-visited targets fails the whole
visit branch. -/
theorem dispatchVisit_error (env : Env) (a : StepAction) (t : AgentState)
    (ts : List String) (u e : String)
    (hts : a.URLTargets = some ts)
    (hu : u ∈ uniqueTargets t.visitedURLs ts)
    (hf : env.readUrl u = .error e) :
    ∃ e2, dispatchVisit env a t = .error e2 := by
  obtain ⟨e2, hfold⟩ := visitFold_error env (uniqueTargets t.visitedURLs ts) t u e hu hf
  refine ⟨e2, ?_⟩
  simp only [dispatchVisit, hts, Option.getD_some]
  rw [if_pos (show (!(uniqueTargets t.visitedURLs ts).isEmpty) = true by
    have hne : uniqueTargets t.visitedURLs ts ≠ [] := List.ne_nil_of_mem hu
    simpa [List.isEmpty_iff] using hne)]
  rw [hfold]

/-- C9: in a visit step with at least one not-yet-visited URL, a single
rejecting fetch fails the whole step with an error (the `Promise.all`
rejects), and the loop run from that state propagates the same error, so
none of the step's additions to Knowledge or the Visited list, nor its
Frontier removals, survive into any returned state. -/
theorem C9_theorem (env : Env) (question : String) (tokenBudget maxBadAttempts : Nat)
    (s : AgentState) (a : StepAction) (ts : List String) (u e : String)
    (ho : env.oracle (s.totalStep + 1) = some a)
    (hact : a.action = "visit")
    (hts : a.URLTargets = some ts)
    (hu : u ∈ uniqueTargets s.visitedURLs ts)
    (hf : env.readUrl u = .error e)
    (h50 : ¬ tokenBudget < s.usage + 50) :
    ∃ e2, runStep env question tokenBudget maxBadAttempts s = .error e2 ∧
      ∀ fuel, s.usage < tokenBudget → s.badAttempts ≤ maxBadAttempts →
        runLoop env question tokenBudget maxBadAttempts (fuel + 1) s = .error e2 := by
  have hts2 : truthyLen a.URLTargets = true := by
    rw [hts]
    have hne : ts ≠ [] := by
      intro hnil
      rw [hnil] at hu
      have : u ∈ ([] : List String) := by
        have := hu
        unfold uniqueTargets at this
        split at this
        · exact this
        · simpa using (List.mem_filter.mp this).1
      cases this
    simpa [truthyLen, List.isEmpty_iff] using hne
  obtain ⟨e2, hdv⟩ := dispatchVisit_error env a (postOracle env s a) ts u e hts hu hf
  have hstep : runStep env question tokenBudget maxBadAttempts s = .error e2 := by
    rw [runStep_eq_dispatch _ _ _ _ _ _ h50 ho,
      dispatch_eq_visit _ _ _ _ _ _ hact hts2, hdv]
  refine ⟨e2, hstep, ?_⟩
  intro fuel hub hbad
  unfold runLoop
  rw [if_pos ⟨hub, hbad⟩, hstep]

/-- C9 (witness): a concrete visit step whose single fetch rejects fails the
step and the loop. -/
theorem C9_witness :
    ∃ e2, runStep envVisitFail "Q" 1000 3 (initialState "Q") = .error e2 ∧
      ∀ fuel, (initialState "Q").usage < 1000 → (initialState "Q").badAttempts ≤ 3 →
        runLoop envVisitFail "Q" 1000 3 (fuel + 1) (initialState "Q") = .error e2 :=
  C9_theorem envVisitFail "Q" 1000 3 (initialState "Q")
    {action := "visit", URLTargets := some ["http://a"]} ["http://a"] "http://a"
    "fetch failed" rfl rfl rfl (by decide) rfl (by decide)

/-- C10: requested URLs are deduplicated only against the visited list, not
within the request: a visit listing the same unvisited URL twice fetches it
twice, appends two identical Knowledge Items of kind `url`, and pushes the
URL twice into the visited list. -/
theorem C10_theorem (env : Env) (question : String) (tokenBudget maxBadAttempts : Nat)
    (s s2 : AgentState) (a : StepAction) (u : String) (rr : ReadResult)
    (ho : env.oracle (s.totalStep + 1) = some a)
    (hact : a.action = "visit")
    (hts : a.URLTargets = some [u, u])
    (hnv : s.visitedURLs.contains u = false)
    (hr : env.readUrl u = .ok rr)
    (hrun : runStep env question tokenBudget maxBadAttempts s = .ok (.proceed s2)) :
    s2.visitedURLs = s.visitedURLs ++ [u, u] ∧
    s2.allKnowledge = s.allKnowledge ++ [knowledgeOfRead rr, knowledgeOfRead rr] ∧
    (knowledgeOfRead rr).type = "url" := by
  have h50 := runStep_ok_not_over _ _ _ _ _ _ hrun
  have hts2 : truthyLen a.URLTargets = true := by rw [hts]; rfl
  have huniq : uniqueTargets s.visitedURLs [u, u] = [u, u] := by
    unfold uniqueTargets
    split
    · rfl
    · have hmem : u ∉ s.visitedURLs := by simpa using hnv
      simp [List.filter, hmem]
  rw [runStep_eq_dispatch _ _ _ _ _ _ h50 ho,
    dispatch_eq_visit _ _ _ _ _ _ hact hts2] at hrun
  simp only [dispatchVisit, hts, Option.getD_some] at hrun
  rw [show uniqueTargets (postOracle env s a).visitedURLs [u, u] = [u, u] from huniq]
    at hrun
  rw [if_pos (show (!([u, u] : List String).isEmpty) = true from rfl)] at hrun
  simp only [visitFold, hr] at hrun
  cases hrun
  refine ⟨?_, ?_, rfl⟩
  · show ((s.visitedURLs ++ [u]) ++ [u]) = s.visitedURLs ++ [u, u]
    simp
  · show ((s.allKnowledge ++ [knowledgeOfRead rr]) ++ [knowledgeOfRead rr]) =
      s.allKnowledge ++ [knowledgeOfRead rr, knowledgeOfRead rr]
    simp

/-- C10 (witness): the double fetch at a concrete visit step listing the same
URL twice. -/
theorem C10_witness :
    (stepResultOf envVisitTwice "Q" 1000 3 (initialState "Q")).visitedURLs =
        (initialState "Q").visitedURLs ++ ["http://a", "http://a"] ∧
    (stepResultOf envVisitTwice "Q" 1000 3 (initialState "Q")).allKnowledge =
        (initialState "Q").allKnowledge ++
          [knowledgeOfRead
              {data := some {url := some "http://a", content := some "hello"}, tokens := 5},
            knowledgeOfRead
              {data := some {url := some "http://a", content := some "hello"}, tokens := 5}] ∧
    (knowledgeOfRead
        {data := some {url := some "http://a", content := some "hello"},
          tokens := 5}).type = "url" :=
  C10_theorem envVisitTwice "Q" 1000 3 (initialState "Q")
    (stepResultOf envVisitTwice "Q" 1000 3 (initialState "Q"))
    {action := "visit", URLTargets := some ["http://a", "http://a"]} "http://a"
    {data := some {url := some "http://a", content := some "hello"}, tokens := 5}
    rfl rfl rfl rfl rfl rfl

end DeepResearch
